import Mathlib

/-!
# Verification of the AgentBay SDK `Application` module (TypeScript)

Shallow embedding of `typescript/src/application/application.ts`: the
`callMcpTool` helper, the `parseJSON` helper and the six public operations
(`getInstalledApps`, `startApp`, `stopAppByPName`, `stopAppByPID`,
`stopAppByCmd`, `listVisibleApps`).

Modelling conventions:
* JavaScript values flowing through the untyped parts of the code
  (`Record<string, any>`, content items, parsed JSON) are modelled by the
  inductive `JValue`; a missing property / `undefined` is `Option.none`.
* JavaScript truthiness is `jTruthy` (with `none` falsy).
* Thrown errors are modelled by their message strings carried in
  `Except String`; the `Error: ` / `APIError: ` class prefixes that
  JavaScript string interpolation would add are omitted (they affect no
  property below: only non-emptiness and substring containment matter).
* The transport (`client.callMcpTool`) is a parameter of type `Transport`;
  a transport failure is an `Except.error`.  The argument mapping is passed
  to the transport unserialised, which makes the mapping that is "sent"
  directly observable; `JSON.stringify` of an acyclic mapping cannot fail.
-/

/-- A JSON/JavaScript value.  JSON numbers are modelled as integers (no
claim below involves fractional numbers). -/
inductive JValue where
  | jnull : JValue
  | jbool : Bool → JValue
  | jnum : Int → JValue
  | jstr : String → JValue
  | jarr : List JValue → JValue
  | jobj : List (String × JValue) → JValue

/-- Property lookup `v[key]`: defined on objects, `undefined` (`none`)
elsewhere.  This also models the optional-chaining accesses `x?.text`. -/
def jLookup : JValue → String → Option JValue
  | .jobj fields, key => fields.lookup key
  | _, _ => none

/-- JavaScript truthiness of a value (`false`, `0`, `""` and `null` are
falsy; every array and object is truthy). -/
def jTruthy : JValue → Bool
  | .jnull => false
  | .jbool b => b
  | .jnum n => n ≠ 0
  | .jstr s => s ≠ ""
  | .jarr _ => true
  | .jobj _ => true

mutual

/-- JavaScript `String(v)`, as used by `new Error(x)` for the error
message.  Only the string case is exercised by the properties below. -/
def jToString : JValue → String
  | .jnull => "null"
  | .jbool b => cond b "true" "false"
  | .jnum n => toString n
  | .jstr s => s
  | .jarr items => jToStringList items
  | .jobj _ => "[object Object]"

/-- `Array.prototype.join(",")` as used by `String` on arrays. -/
def jToStringList : List JValue → String
  | [] => ""
  | [v] => jToString v
  | v :: rest => jToString v ++ "," ++ jToStringList rest

end

/-- The body of the transport response (`response.body`), carrying the
optional `data` payload. -/
structure ResponseBody where
  data : Option JValue

/-- A transport response.  `requestId` stands for the request id carried in
the transport response metadata.

Modelled from the spec: `extractRequestId` (imported from
`types/api-response`, not part of this repository slice) extracts the
request id "from the transport response's metadata when present, else
absent"; we expose it as an optional field of the response. -/
structure Response where
  statusCode : Option Int
  body : Option ResponseBody
  requestId : Option String

/-- Modelled from the spec: `extractRequestId` returns the request id from
the transport response's metadata when present, else absent. -/
def extractRequestId (response : Response) : Option String :=
  response.requestId

/-- The injected transport: receives the tool name and the (unserialised)
argument mapping, returns a response or fails. -/
def Transport : Type :=
  String → List (String × JValue) → Except String Response

/-- Result object for a CallMcpTool operation (interface
`CallMcpToolResult`). -/
structure CallMcpToolResult where
  data : JValue
  content : Option (List JValue)
  textContent : Option String
  isError : Bool
  errorMsg : Option String
  statusCode : Int
  requestId : Option String

/-- `!response.body?.data` check of `callMcpTool`: the `data` payload, if
the body is present, the payload is present and the payload is truthy;
`none` otherwise. -/
def respData (response : Response) : Option JValue :=
  match response.body with
  | some body =>
    match body.data with
    | some d => if jTruthy d then some d else none
    | none => none
  | none => none

/-- The loop of `callMcpTool` that pushes `item.text` for every content
item satisfying
`item && typeof item === "object" && item.text && typeof item.text === "string"`
(so: an object whose `text` property is a non-empty string). -/
def collectTextParts : List JValue → List String
  | [] => []
  | item :: rest =>
    match item with
    | .jobj fields =>
      match fields.lookup "text" with
      | some (.jstr s) => if s = "" then collectTextParts rest else s :: collectTextParts rest
      | _ => collectTextParts rest
    | _ => collectTextParts rest

/-- `result.content` on the success path: the content array when
`Array.isArray(data.content)` holds, absent otherwise. -/
def contentOf (d : JValue) : Option (List JValue) :=
  match jLookup d "content" with
  | some (.jarr items) => some items
  | _ => none

/-- `result.textContent` on the success path: computed only when the
content array exists and is non-empty; the newline-join of the collected
text parts. -/
def textContentOf (d : JValue) : Option String :=
  match jLookup d "content" with
  | some (.jarr items) =>
    if items.length > 0 then some (String.intercalate "\n" (collectTextParts items)) else none
  | _ => none

/-- The `try` block of `callMcpTool`: dispatch the request, fail on a
missing/falsy `data` payload, fail (with the first content item's truthy
`text`, else the default message) when `data.isError === true`, otherwise
build the `CallMcpToolResult`. -/
def callMcpToolInner (transport : Transport) (toolName : String)
    (args : List (String × JValue)) (defaultErrorMsg : String) :
    Except String CallMcpToolResult :=
  match transport toolName args with
  | .error e => .error e
  | .ok response =>
    match respData response with
    | none => .error "Invalid response data format"
    | some d =>
      match jLookup d "isError" with
      | some (.jbool true) =>
        match jLookup d "content" with
        | some (.jarr (x :: _)) =>
          match jLookup x "text" with
          | some t => if jTruthy t then .error (jToString t) else .error defaultErrorMsg
          | none => .error defaultErrorMsg
        | _ => .error defaultErrorMsg
      | _ =>
        .ok
          { data := d
            content := contentOf d
            textContent := textContentOf d
            isError := false
            errorMsg := none
            statusCode := (response.statusCode).getD 0
            requestId := extractRequestId response }

/-- `callMcpTool`: the `try` block wrapped by the `catch` that rethrows
every failure as `APIError("Failed to call <tool>: <cause>")`. -/
def callMcpTool (transport : Transport) (toolName : String)
    (args : List (String × JValue)) (defaultErrorMsg : String) :
    Except String CallMcpToolResult :=
  match callMcpToolInner transport toolName args defaultErrorMsg with
  | .ok r => .ok r
  | .error e => .error ("Failed to call " ++ toolName ++ ": " ++ e)

/-! ## JSON parsing (`JSON.parse` / `parseJSON`)

Modelled from the spec: JSON serialization primitives are "assumed
available, not designed here", so `JSON.parse` is modelled by a standard
recursive-descent parser producing a `JValue`.  Numbers are restricted to
(optionally signed) integers and string escapes to the single-character
escapes; no claim below involves fractional numbers or unicode escapes. -/

/-- Skip JSON whitespace. -/
def skipWs : List Char → List Char
  | c :: rest => if c = ' ' ∨ c = '\n' ∨ c = '\t' ∨ c = '\r' then skipWs rest else c :: rest
  | [] => []

/-- Parse the body of a JSON string after the opening quote; returns the
string and the input after the closing quote. -/
def parseStringBody (acc : List Char) : List Char → Option (String × List Char)
  | [] => none
  | '"' :: rest => some (⟨acc.reverse⟩, rest)
  | '\\' :: esc :: rest =>
    match esc with
    | '"' => parseStringBody ('"' :: acc) rest
    | '\\' => parseStringBody ('\\' :: acc) rest
    | '/' => parseStringBody ('/' :: acc) rest
    | 'n' => parseStringBody ('\n' :: acc) rest
    | 't' => parseStringBody ('\t' :: acc) rest
    | 'r' => parseStringBody ('\r' :: acc) rest
    | _ => none
  | c :: rest => parseStringBody (c :: acc) rest

/-- Parse a run of decimal digits, accumulating into `acc`. -/
def parseDigits (acc : Nat) : List Char → Nat × List Char
  | c :: rest =>
    if c.isDigit then parseDigits (acc * 10 + (c.toNat - '0'.toNat)) rest
    else (acc, c :: rest)
  | [] => (acc, [])

mutual

/-- Parse one JSON value (fuel-indexed recursive descent). -/
def parseValue : Nat → List Char → Option (JValue × List Char)
  | 0, _ => none
  | Nat.succ fuel, cs =>
    match skipWs cs with
    | 'n' :: 'u' :: 'l' :: 'l' :: rest => some (.jnull, rest)
    | 't' :: 'r' :: 'u' :: 'e' :: rest => some (.jbool true, rest)
    | 'f' :: 'a' :: 'l' :: 's' :: 'e' :: rest => some (.jbool false, rest)
    | '"' :: rest =>
      match parseStringBody [] rest with
      | some (s, rest2) => some (.jstr s, rest2)
      | none => none
    | '[' :: rest =>
      match skipWs rest with
      | ']' :: rest2 => some (.jarr [], rest2)
      | cs2 =>
        match parseElems fuel cs2 with
        | some (items, rest2) => some (.jarr items, rest2)
        | none => none
    | '\x7b' :: rest =>
      match skipWs rest with
      | '\x7d' :: rest2 => some (.jobj [], rest2)
      | cs2 =>
        match parseMembers fuel cs2 with
        | some (fields, rest2) => some (.jobj fields, rest2)
        | none => none
    | '-' :: c :: rest =>
      if c.isDigit then
        match parseDigits 0 (c :: rest) with
        | (n, rest2) => some (.jnum (-(n : Int)), rest2)
      else none
    | c :: rest =>
      if c.isDigit then
        match parseDigits 0 (c :: rest) with
        | (n, rest2) => some (.jnum (n : Int), rest2)
      else none
    | [] => none

/-- Parse the comma-separated elements of a non-empty JSON array, up to and
including the closing bracket. -/
def parseElems : Nat → List Char → Option (List JValue × List Char)
  | 0, _ => none
  | Nat.succ fuel, cs =>
    match parseValue fuel cs with
    | none => none
    | some (v, rest) =>
      match skipWs rest with
      | ',' :: rest2 =>
        match parseElems fuel rest2 with
        | some (vs, rest3) => some (v :: vs, rest3)
        | none => none
      | ']' :: rest2 => some ([v], rest2)
      | _ => none

/-- Parse the comma-separated members of a non-empty JSON object, up to and
including the closing brace. -/
def parseMembers : Nat → List Char → Option (List (String × JValue) × List Char)
  | 0, _ => none
  | Nat.succ fuel, cs =>
    match skipWs cs with
    | '"' :: rest =>
      match parseStringBody [] rest with
      | none => none
      | some (key, rest2) =>
        match skipWs rest2 with
        | ':' :: rest3 =>
          match parseValue fuel rest3 with
          | none => none
          | some (v, rest4) =>
            match skipWs rest4 with
            | ',' :: rest5 =>
              match parseMembers fuel rest5 with
              | some (fields, rest6) => some ((key, v) :: fields, rest6)
              | none => none
            | '\x7d' :: rest5 => some ([(key, v)], rest5)
            | _ => none
        | _ => none
    | _ => none

end

/-- `JSON.parse`: parse a complete JSON document (trailing whitespace
allowed, nothing else). -/
def jparse (s : String) : Option JValue :=
  match parseValue (2 * s.length + 2) s.data with
  | some (v, rest) => if skipWs rest = [] then some v else none
  | none => none

/-- The `parseJSON` helper: `JSON.parse` wrapped so that a parse failure
throws `Error("Failed to parse JSON: <cause>")`. -/
def parseJSON (s : String) : Except String JValue :=
  match jparse s with
  | some v => .ok v
  | none => .error ("Failed to parse JSON: " ++ "SyntaxError")

/-! ## Public result records and decoded record types -/

/-- Represents an installed application (interface `InstalledApp`). -/
structure InstalledApp where
  name : String
  start_cmd : String
  stop_cmd : Option String
  work_directory : Option String

/-- Represents a running process (interface `Process`). -/
structure Process where
  pname : String
  pid : Int
  cmdline : Option String
  path : Option String

/-- `InstalledAppListResult`.  The TypeScript `data` field is declared as
`InstalledApp[]` but holds whatever `JSON.parse` produced (the cast is
unchecked), so it is modelled as a `JValue`. -/
structure InstalledAppListResult where
  requestId : String
  success : Bool
  data : JValue
  errorMessage : Option String

/-- `ProcessListResult`; `data` as in `InstalledAppListResult`. -/
structure ProcessListResult where
  requestId : String
  success : Bool
  data : JValue
  errorMessage : Option String

/-- `AppOperationResult`: status-only result of the three stop
operations. -/
structure AppOperationResult where
  requestId : String
  success : Bool
  errorMessage : Option String

/-! ## The six public operations -/

/-- Argument mapping of `getInstalledApps`. -/
def getInstalledAppsArgs (startMenu desktop ignoreSystemApps : Bool) :
    List (String × JValue) :=
  [("start_menu", .jbool startMenu), ("desktop", .jbool desktop),
   ("ignore_system_apps", .jbool ignoreSystemApps)]

/-- The `try` block of `getInstalledApps`: call the tool, and when
`result.textContent` is truthy (present and non-empty) parse it; yields
the request id and the parsed apps. -/
def getInstalledAppsRun (transport : Transport)
    (startMenu desktop ignoreSystemApps : Bool) :
    Except String (Option String × JValue) :=
  match callMcpTool transport "get_installed_apps"
      (getInstalledAppsArgs startMenu desktop ignoreSystemApps)
      "Failed to get installed apps" with
  | .error e => .error e
  | .ok result =>
    match result.textContent with
    | some s =>
      if s = "" then .ok (result.requestId, .jarr [])
      else
        match parseJSON s with
        | .ok apps => .ok (result.requestId, apps)
        | .error e => .error e
    | none => .ok (result.requestId, .jarr [])

/-- `getInstalledApps` (explicit-argument form; the TypeScript defaults
`startMenu = desktop = ignoreSystemApps = true` are modelled by
`getInstalledAppsDefault`). -/
def getInstalledApps (transport : Transport)
    (startMenu desktop ignoreSystemApps : Bool) : InstalledAppListResult :=
  match getInstalledAppsRun transport startMenu desktop ignoreSystemApps with
  | .ok (rid, apps) =>
    { requestId := rid.getD "", success := true, data := apps, errorMessage := none }
  | .error e =>
    { requestId := "", success := false, data := .jarr [],
      errorMessage := some ("Failed to get installed apps: " ++ e) }

/-- `getInstalledApps()` called with no arguments: all three parameters
default to `true`. -/
def getInstalledAppsDefault (transport : Transport) : InstalledAppListResult :=
  getInstalledApps transport true true true

/-- Argument mapping of `startApp`: `start_cmd` always; `work_directory`
and `activity` only when truthy (non-empty). -/
def startAppArgs (startCmd workDirectory activity : String) :
    List (String × JValue) :=
  let args := [("start_cmd", JValue.jstr startCmd)]
  let args := if workDirectory ≠ "" then args ++ [("work_directory", JValue.jstr workDirectory)] else args
  let args := if activity ≠ "" then args ++ [("activity", JValue.jstr activity)] else args
  args

/-- The `try` block of `startApp`. -/
def startAppRun (transport : Transport) (startCmd workDirectory activity : String) :
    Except String (Option String × JValue) :=
  match callMcpTool transport "start_app"
      (startAppArgs startCmd workDirectory activity) "Failed to start app" with
  | .error e => .error e
  | .ok result =>
    match result.textContent with
    | some s =>
      if s = "" then .ok (result.requestId, .jarr [])
      else
        match parseJSON s with
        | .ok procs => .ok (result.requestId, procs)
        | .error e => .error e
    | none => .ok (result.requestId, .jarr [])

/-- `startApp` (the TypeScript defaults are `workDirectory = ""` and
`activity = ""`). -/
def startApp (transport : Transport) (startCmd workDirectory activity : String) :
    ProcessListResult :=
  match startAppRun transport startCmd workDirectory activity with
  | .ok (rid, procs) =>
    { requestId := rid.getD "", success := true, data := procs, errorMessage := none }
  | .error e =>
    { requestId := "", success := false, data := .jarr [],
      errorMessage := some ("Failed to start app: " ++ e) }

/-- `stopAppByPName`. -/
def stopAppByPName (transport : Transport) (pname : String) : AppOperationResult :=
  match callMcpTool transport "stop_app_by_pname" [("pname", .jstr pname)]
      "Failed to stop app by pname" with
  | .ok result =>
    { requestId := result.requestId.getD "", success := true, errorMessage := none }
  | .error e =>
    { requestId := "", success := false,
      errorMessage := some ("Failed to stop app by pname: " ++ e) }

/-- `stopAppByPID`. -/
def stopAppByPID (transport : Transport) (pid : Int) : AppOperationResult :=
  match callMcpTool transport "stop_app_by_pid" [("pid", .jnum pid)]
      "Failed to stop app by pid" with
  | .ok result =>
    { requestId := result.requestId.getD "", success := true, errorMessage := none }
  | .error e =>
    { requestId := "", success := false,
      errorMessage := some ("Failed to stop app by pid: " ++ e) }

/-- `stopAppByCmd`. -/
def stopAppByCmd (transport : Transport) (stopCmd : String) : AppOperationResult :=
  match callMcpTool transport "stop_app_by_cmd" [("stop_cmd", .jstr stopCmd)]
      "Failed to stop app by command" with
  | .ok result =>
    { requestId := result.requestId.getD "", success := true, errorMessage := none }
  | .error e =>
    { requestId := "", success := false,
      errorMessage := some ("Failed to stop app by command: " ++ e) }

/-- The `try` block of `listVisibleApps` (empty argument mapping). -/
def listVisibleAppsRun (transport : Transport) :
    Except String (Option String × JValue) :=
  match callMcpTool transport "list_visible_apps" [] "Failed to list visible apps" with
  | .error e => .error e
  | .ok result =>
    match result.textContent with
    | some s =>
      if s = "" then .ok (result.requestId, .jarr [])
      else
        match parseJSON s with
        | .ok procs => .ok (result.requestId, procs)
        | .error e => .error e
    | none => .ok (result.requestId, .jarr [])

/-- `listVisibleApps`. -/
def listVisibleApps (transport : Transport) : ProcessListResult :=
  match listVisibleAppsRun transport with
  | .ok (rid, procs) =>
    { requestId := rid.getD "", success := true, data := procs, errorMessage := none }
  | .error e =>
    { requestId := "", success := false, data := .jarr [],
      errorMessage := some ("Failed to list visible apps: " ++ e) }

/-! ## Decoding records from parsed JSON

The TypeScript code casts the `JSON.parse` result to `InstalledApp[]` /
`Process[]` without validation; the decoders below spell out when a parsed
value actually is a record of the expected type, for the round-trip
property. -/

/-- Decode an optional string field: absent is fine, a string is fine,
anything else is not of the expected type. -/
def decodeOptString (fields : List (String × JValue)) (key : String) :
    Option (Option String) :=
  match fields.lookup key with
  | none => some none
  | some (.jstr s) => some (some s)
  | some _ => none

/-- Decode one `InstalledApp` record. -/
def decodeInstalledApp : JValue → Option InstalledApp
  | .jobj fields =>
    match fields.lookup "name", fields.lookup "start_cmd" with
    | some (.jstr n), some (.jstr sc) =>
      match decodeOptString fields "stop_cmd", decodeOptString fields "work_directory" with
      | some stopc, some wd =>
        some { name := n, start_cmd := sc, stop_cmd := stopc, work_directory := wd }
      | _, _ => none
    | _, _ => none
  | _ => none

/-- Decode one `Process` record. -/
def decodeProcess : JValue → Option Process
  | .jobj fields =>
    match fields.lookup "pname", fields.lookup "pid" with
    | some (.jstr pn), some (.jnum pd) =>
      match decodeOptString fields "cmdline", decodeOptString fields "path" with
      | some cl, some p =>
        some { pname := pn, pid := pd, cmdline := cl, path := p }
      | _, _ => none
    | _, _ => none
  | _ => none

/-- Decode every element of a list, failing if any element fails. -/
def decodeList {α : Type} (decode : JValue → Option α) : List JValue → Option (List α)
  | [] => some []
  | v :: rest =>
    match decode v with
    | some a =>
      match decodeList decode rest with
      | some tl => some (a :: tl)
      | none => none
    | none => none

/-! ## Claim-side text extraction (for comparison with `collectTextParts`) -/

/-- The text parts as the claim words them: the `text` field of every item
that has a string `text` field (empty strings included). -/
def claimTextParts (items : List JValue) : List String :=
  items.filterMap fun item =>
    match item with
    | .jobj fields =>
      match fields.lookup "text" with
      | some (.jstr s) => some s
      | _ => none
    | _ => none

/-- The text parts as the amended claim words them: the `text` field of
every item that has a non-empty string `text` field. -/
def amendedTextParts (items : List JValue) : List String :=
  items.filterMap fun item =>
    match item with
    | .jobj fields =>
      match fields.lookup "text" with
      | some (.jstr s) => if s = "" then none else some s
      | _ => none
    | _ => none

/-! ## Helper lemmas -/

lemma str_append_ne_empty (a b : String) (h : a ≠ "") : a ++ b ≠ "" := by
  intro hab
  apply h
  cases a with
  | mk la =>
    cases b with
    | mk lb =>
      have hd : la ++ lb = [] := congrArg String.data hab
      have h1 : la = [] := (List.append_eq_nil.mp hd).1
      simp [h1]

lemma callMcpTool_transport_error (t : Transport) (name : String)
    (args : List (String × JValue)) (msg e : String) (h : t name args = .error e) :
    callMcpTool t name args msg = .error ("Failed to call " ++ name ++ ": " ++ e) := by
  simp [callMcpTool, callMcpToolInner, h]

lemma getInstalledApps_of_run_error (t : Transport) (sm dk isa : Bool) (e : String)
    (h : getInstalledAppsRun t sm dk isa = .error e) :
    getInstalledApps t sm dk isa =
      { requestId := "", success := false, data := .jarr [],
        errorMessage := some ("Failed to get installed apps: " ++ e) } := by
  simp [getInstalledApps, h]

lemma getInstalledApps_of_run_ok (t : Transport) (sm dk isa : Bool)
    (rid : Option String) (apps : JValue)
    (h : getInstalledAppsRun t sm dk isa = .ok (rid, apps)) :
    getInstalledApps t sm dk isa =
      { requestId := rid.getD "", success := true, data := apps, errorMessage := none } := by
  simp [getInstalledApps, h]

lemma startApp_of_run_error (t : Transport) (cmd wd act e : String)
    (h : startAppRun t cmd wd act = .error e) :
    startApp t cmd wd act =
      { requestId := "", success := false, data := .jarr [],
        errorMessage := some ("Failed to start app: " ++ e) } := by
  simp [startApp, h]

lemma startApp_of_run_ok (t : Transport) (cmd wd act : String)
    (rid : Option String) (procs : JValue)
    (h : startAppRun t cmd wd act = .ok (rid, procs)) :
    startApp t cmd wd act =
      { requestId := rid.getD "", success := true, data := procs, errorMessage := none } := by
  simp [startApp, h]

lemma listVisibleApps_of_run_error (t : Transport) (e : String)
    (h : listVisibleAppsRun t = .error e) :
    listVisibleApps t =
      { requestId := "", success := false, data := .jarr [],
        errorMessage := some ("Failed to list visible apps: " ++ e) } := by
  simp [listVisibleApps, h]

lemma listVisibleApps_of_run_ok (t : Transport) (rid : Option String) (procs : JValue)
    (h : listVisibleAppsRun t = .ok (rid, procs)) :
    listVisibleApps t =
      { requestId := rid.getD "", success := true, data := procs, errorMessage := none } := by
  simp [listVisibleApps, h]

lemma runOf_transport_error_getInstalledApps (t : Transport) (sm dk isa : Bool) (e : String)
    (h : t "get_installed_apps" (getInstalledAppsArgs sm dk isa) = .error e) :
    getInstalledAppsRun t sm dk isa = .error ("Failed to call get_installed_apps: " ++ e) := by
  simp [getInstalledAppsRun, callMcpTool_transport_error _ _ _ _ _ h]

lemma runOf_transport_error_startApp (t : Transport) (cmd wd act e : String)
    (h : t "start_app" (startAppArgs cmd wd act) = .error e) :
    startAppRun t cmd wd act = .error ("Failed to call start_app: " ++ e) := by
  simp [startAppRun, callMcpTool_transport_error _ _ _ _ _ h]

lemma runOf_transport_error_listVisibleApps (t : Transport) (e : String)
    (h : t "list_visible_apps" [] = .error e) :
    listVisibleAppsRun t = .error ("Failed to call list_visible_apps: " ++ e) := by
  simp [listVisibleAppsRun, callMcpTool_transport_error _ _ _ _ _ h]

/-! ## Claim theorems -/

/-- A transport that always fails, for witnesses. -/
def tError : Transport := fun _ _ => .error "connection reset"

/-- C1: every failure of any of the six public operations is returned (not
raised) as a record with `success = false`, `requestId = ""` and a
non-empty `errorMessage`; in particular a transport failure always
produces such a record.  (The operations are total Lean functions, so
"never raises to the caller" holds by construction; serialization of the
acyclic argument mapping cannot fail.) -/
theorem c1_uniform_failure_records :
    (∀ (t : Transport) (sm dk isa : Bool),
      ((getInstalledApps t sm dk isa).success = false →
        (getInstalledApps t sm dk isa).requestId = "" ∧
        ∃ m, (getInstalledApps t sm dk isa).errorMessage = some m ∧ m ≠ "") ∧
      (∀ e, t "get_installed_apps" (getInstalledAppsArgs sm dk isa) = .error e →
        (getInstalledApps t sm dk isa).success = false)) ∧
    (∀ (t : Transport) (cmd wd act : String),
      ((startApp t cmd wd act).success = false →
        (startApp t cmd wd act).requestId = "" ∧
        ∃ m, (startApp t cmd wd act).errorMessage = some m ∧ m ≠ "") ∧
      (∀ e, t "start_app" (startAppArgs cmd wd act) = .error e →
        (startApp t cmd wd act).success = false)) ∧
    (∀ (t : Transport) (p : String),
      ((stopAppByPName t p).success = false →
        (stopAppByPName t p).requestId = "" ∧
        ∃ m, (stopAppByPName t p).errorMessage = some m ∧ m ≠ "") ∧
      (∀ e, t "stop_app_by_pname" [("pname", .jstr p)] = .error e →
        (stopAppByPName t p).success = false)) ∧
    (∀ (t : Transport) (pid : Int),
      ((stopAppByPID t pid).success = false →
        (stopAppByPID t pid).requestId = "" ∧
        ∃ m, (stopAppByPID t pid).errorMessage = some m ∧ m ≠ "") ∧
      (∀ e, t "stop_app_by_pid" [("pid", .jnum pid)] = .error e →
        (stopAppByPID t pid).success = false)) ∧
    (∀ (t : Transport) (sc : String),
      ((stopAppByCmd t sc).success = false →
        (stopAppByCmd t sc).requestId = "" ∧
        ∃ m, (stopAppByCmd t sc).errorMessage = some m ∧ m ≠ "") ∧
      (∀ e, t "stop_app_by_cmd" [("stop_cmd", .jstr sc)] = .error e →
        (stopAppByCmd t sc).success = false)) ∧
    (∀ (t : Transport),
      ((listVisibleApps t).success = false →
        (listVisibleApps t).requestId = "" ∧
        ∃ m, (listVisibleApps t).errorMessage = some m ∧ m ≠ "") ∧
      (∀ e, t "list_visible_apps" [] = .error e →
        (listVisibleApps t).success = false)) := by
  refine ⟨?_, ?_, ?_, ?_, ?_, ?_⟩
  · intro t sm dk isa
    constructor
    · intro hf
      cases hr : getInstalledAppsRun t sm dk isa with
      | ok v =>
        obtain ⟨rid, apps⟩ := v
        rw [getInstalledApps_of_run_ok t sm dk isa rid apps hr] at hf
        simp at hf
      | error e =>
        rw [getInstalledApps_of_run_error t sm dk isa e hr]
        exact ⟨rfl, _, rfl, str_append_ne_empty _ _ (by decide)⟩
    · intro e he
      rw [getInstalledApps_of_run_error t sm dk isa _
        (runOf_transport_error_getInstalledApps t sm dk isa e he)]
  · intro t cmd wd act
    constructor
    · intro hf
      cases hr : startAppRun t cmd wd act with
      | ok v =>
        obtain ⟨rid, procs⟩ := v
        rw [startApp_of_run_ok t cmd wd act rid procs hr] at hf
        simp at hf
      | error e =>
        rw [startApp_of_run_error t cmd wd act e hr]
        exact ⟨rfl, _, rfl, str_append_ne_empty _ _ (by decide)⟩
    · intro e he
      rw [startApp_of_run_error t cmd wd act _
        (runOf_transport_error_startApp t cmd wd act e he)]
  · intro t p
    constructor
    · intro hf
      cases hr : callMcpTool t "stop_app_by_pname" [("pname", .jstr p)]
          "Failed to stop app by pname" with
      | ok r =>
        simp [stopAppByPName, hr] at hf
      | error e =>
        simp [stopAppByPName, hr]
        exact str_append_ne_empty _ _ (by decide)
    · intro e he
      simp [stopAppByPName, callMcpTool_transport_error _ _ _ _ _ he]
  · intro t pid
    constructor
    · intro hf
      cases hr : callMcpTool t "stop_app_by_pid" [("pid", .jnum pid)]
          "Failed to stop app by pid" with
      | ok r =>
        simp [stopAppByPID, hr] at hf
      | error e =>
        simp [stopAppByPID, hr]
        exact str_append_ne_empty _ _ (by decide)
    · intro e he
      simp [stopAppByPID, callMcpTool_transport_error _ _ _ _ _ he]
  · intro t sc
    constructor
    · intro hf
      cases hr : callMcpTool t "stop_app_by_cmd" [("stop_cmd", .jstr sc)]
          "Failed to stop app by command" with
      | ok r =>
        simp [stopAppByCmd, hr] at hf
      | error e =>
        simp [stopAppByCmd, hr]
        exact str_append_ne_empty _ _ (by decide)
    · intro e he
      simp [stopAppByCmd, callMcpTool_transport_error _ _ _ _ _ he]
  · intro t
    constructor
    · intro hf
      cases hr : listVisibleAppsRun t with
      | ok v =>
        obtain ⟨rid, procs⟩ := v
        rw [listVisibleApps_of_run_ok t rid procs hr] at hf
        simp at hf
      | error e =>
        rw [listVisibleApps_of_run_error t e hr]
        exact ⟨rfl, _, rfl, str_append_ne_empty _ _ (by decide)⟩
    · intro e he
      rw [listVisibleApps_of_run_error t _
        (runOf_transport_error_listVisibleApps t e he)]

theorem c1_uniform_failure_records_witness :
    (getInstalledApps tError true true true).success = false ∧
    (getInstalledApps tError true true true).requestId = "" ∧
    (∃ m, (getInstalledApps tError true true true).errorMessage = some m ∧ m ≠ "") ∧
    (stopAppByPID tError 7).success = false ∧
    (listVisibleApps tError).success = false :=
  ⟨(c1_uniform_failure_records.1 tError true true true).2 "connection reset" rfl,
   ((c1_uniform_failure_records.1 tError true true true).1 (by decide)).1,
   ((c1_uniform_failure_records.1 tError true true true).1 (by decide)).2,
   (c1_uniform_failure_records.2.2.2.1 tError 7).2 "connection reset" rfl,
   (c1_uniform_failure_records.2.2.2.2.2 tError).2 "connection reset" rfl⟩

lemma callMcpToolInner_ok_isError (t : Transport) (name : String)
    (args : List (String × JValue)) (msg : String) (r : CallMcpToolResult)
    (h : callMcpToolInner t name args msg = .ok r) : r.isError = false := by
  unfold callMcpToolInner at h
  repeat' split at h
  all_goals simp_all
  all_goals simp [← h]

/-- C9: `callMcpTool` never returns a `CallMcpToolResult` whose `isError`
field is true: whenever the response payload marks `isError = true` the
helper fails before returning, so no result object is simultaneously
returned as success and marked `isError`. -/
theorem c9_no_success_marked_isError (t : Transport) (name : String)
    (args : List (String × JValue)) (msg : String) (r : CallMcpToolResult)
    (h : callMcpTool t name args msg = .ok r) : r.isError = false := by
  unfold callMcpTool at h
  split at h
  · cases h
    exact callMcpToolInner_ok_isError t name args msg _ (by assumption)
  · cases h

/-- A transport answering with an empty content array, for witnesses. -/
def tOkEmpty : Transport := fun _ _ =>
  .ok { statusCode := some 200,
        body := some { data := some (.jobj [("content", .jarr [])]) },
        requestId := some "rid-1" }

theorem c9_no_success_marked_isError_witness :
    ({ data := .jobj [("content", .jarr [])], content := some [], textContent := none,
       isError := false, errorMsg := none, statusCode := 200,
       requestId := some "rid-1" } : CallMcpToolResult).isError = false :=
  c9_no_success_marked_isError tOkEmpty "tool" [] "msg" _ rfl

/-- C5: `startApp(startCmd, "", "")` sends exactly
`{start_cmd: startCmd}`; each optional argument (`work_directory`,
`activity`) is included in the mapping handed to the transport (by
`startApp` via `startAppRun`) if and only if it is non-empty. -/
theorem c5_startApp_omits_empty_optionals (cmd wd act : String) :
    startAppArgs cmd "" "" = [("start_cmd", .jstr cmd)] ∧
    (startAppArgs cmd wd act).lookup "start_cmd" = some (.jstr cmd) ∧
    ((startAppArgs cmd wd act).lookup "work_directory" =
      if wd = "" then none else some (.jstr wd)) ∧
    ((startAppArgs cmd wd act).lookup "activity" =
      if act = "" then none else some (.jstr act)) := by
  by_cases hw : wd = "" <;> by_cases ha : act = "" <;>
    simp [startAppArgs, hw, ha, List.lookup]

/-- C6: a no-argument `getInstalledApps()` call sends
`{start_menu: true, desktop: true, ignore_system_apps: true}`: all three
parameters default to true. -/
theorem c6_getInstalledApps_defaults :
    getInstalledAppsArgs true true true =
      [("start_menu", .jbool true), ("desktop", .jbool true),
       ("ignore_system_apps", .jbool true)] ∧
    (∀ t, getInstalledAppsDefault t = getInstalledApps t true true true) :=
  ⟨rfl, fun _ => rfl⟩
lemma respData_none_of_absent (resp : Response)
    (h : resp.body = none ∨ ∃ b, resp.body = some b ∧ b.data = none) :
    respData resp = none := by
  rcases h with h | ⟨b, hb, hd⟩ <;> simp [respData, *]

lemma callMcpTool_missing_data (t : Transport) (name : String)
    (args : List (String × JValue)) (msg : String) (resp : Response)
    (ht : t name args = .ok resp) (hd : respData resp = none) :
    callMcpTool t name args msg =
      .error ("Failed to call " ++ name ++ ": " ++ "Invalid response data format") := by
  simp [callMcpTool, callMcpToolInner, ht, hd]

/-- C4: for every public operation, a transport response lacking a data
payload (`response.body` absent, or `body.data` absent) produces a failure
result (not a crash) whose `errorMessage` starts with that operation's
default error message. -/
theorem c4_missing_data_payload :
    (∀ (t : Transport) (sm dk isa : Bool) (resp : Response),
      t "get_installed_apps" (getInstalledAppsArgs sm dk isa) = .ok resp →
      (resp.body = none ∨ ∃ b, resp.body = some b ∧ b.data = none) →
      (getInstalledApps t sm dk isa).success = false ∧
      (getInstalledApps t sm dk isa).requestId = "" ∧
      ∃ rest, (getInstalledApps t sm dk isa).errorMessage =
        some ("Failed to get installed apps" ++ rest)) ∧
    (∀ (t : Transport) (cmd wd act : String) (resp : Response),
      t "start_app" (startAppArgs cmd wd act) = .ok resp →
      (resp.body = none ∨ ∃ b, resp.body = some b ∧ b.data = none) →
      (startApp t cmd wd act).success = false ∧
      (startApp t cmd wd act).requestId = "" ∧
      ∃ rest, (startApp t cmd wd act).errorMessage =
        some ("Failed to start app" ++ rest)) ∧
    (∀ (t : Transport) (p : String) (resp : Response),
      t "stop_app_by_pname" [("pname", .jstr p)] = .ok resp →
      (resp.body = none ∨ ∃ b, resp.body = some b ∧ b.data = none) →
      (stopAppByPName t p).success = false ∧
      (stopAppByPName t p).requestId = "" ∧
      ∃ rest, (stopAppByPName t p).errorMessage =
        some ("Failed to stop app by pname" ++ rest)) ∧
    (∀ (t : Transport) (pid : Int) (resp : Response),
      t "stop_app_by_pid" [("pid", .jnum pid)] = .ok resp →
      (resp.body = none ∨ ∃ b, resp.body = some b ∧ b.data = none) →
      (stopAppByPID t pid).success = false ∧
      (stopAppByPID t pid).requestId = "" ∧
      ∃ rest, (stopAppByPID t pid).errorMessage =
        some ("Failed to stop app by pid" ++ rest)) ∧
    (∀ (t : Transport) (sc : String) (resp : Response),
      t "stop_app_by_cmd" [("stop_cmd", .jstr sc)] = .ok resp →
      (resp.body = none ∨ ∃ b, resp.body = some b ∧ b.data = none) →
      (stopAppByCmd t sc).success = false ∧
      (stopAppByCmd t sc).requestId = "" ∧
      ∃ rest, (stopAppByCmd t sc).errorMessage =
        some ("Failed to stop app by command" ++ rest)) ∧
    (∀ (t : Transport) (resp : Response),
      t "list_visible_apps" [] = .ok resp →
      (resp.body = none ∨ ∃ b, resp.body = some b ∧ b.data = none) →
      (listVisibleApps t).success = false ∧
      (listVisibleApps t).requestId = "" ∧
      ∃ rest, (listVisibleApps t).errorMessage =
        some ("Failed to list visible apps" ++ rest)) := by
  refine ⟨?_, ?_, ?_, ?_, ?_, ?_⟩
  · intro t sm dk isa resp ht habs
    have hc := callMcpTool_missing_data t _ _ "Failed to get installed apps" resp ht
      (respData_none_of_absent resp habs)
    have hr : getInstalledAppsRun t sm dk isa =
        .error ("Failed to call get_installed_apps: " ++ "Invalid response data format") := by
      simp [getInstalledAppsRun, hc]
    rw [getInstalledApps_of_run_error t sm dk isa _ hr]
    exact ⟨rfl, rfl, ": Failed to call get_installed_apps: Invalid response data format", by decide⟩
  · intro t cmd wd act resp ht habs
    have hc := callMcpTool_missing_data t _ _ "Failed to start app" resp ht
      (respData_none_of_absent resp habs)
    have hr : startAppRun t cmd wd act =
        .error ("Failed to call start_app: " ++ "Invalid response data format") := by
      simp [startAppRun, hc]
    rw [startApp_of_run_error t cmd wd act _ hr]
    exact ⟨rfl, rfl, ": Failed to call start_app: Invalid response data format", by decide⟩
  · intro t p resp ht habs
    have hc := callMcpTool_missing_data t _ _ "Failed to stop app by pname" resp ht
      (respData_none_of_absent resp habs)
    simp only [stopAppByPName, hc]
    exact ⟨trivial, trivial, ": Failed to call stop_app_by_pname: Invalid response data format", by decide⟩
  · intro t pid resp ht habs
    have hc := callMcpTool_missing_data t _ _ "Failed to stop app by pid" resp ht
      (respData_none_of_absent resp habs)
    simp only [stopAppByPID, hc]
    exact ⟨trivial, trivial, ": Failed to call stop_app_by_pid: Invalid response data format", by decide⟩
  · intro t sc resp ht habs
    have hc := callMcpTool_missing_data t _ _ "Failed to stop app by command" resp ht
      (respData_none_of_absent resp habs)
    simp only [stopAppByCmd, hc]
    exact ⟨trivial, trivial, ": Failed to call stop_app_by_cmd: Invalid response data format", by decide⟩
  · intro t resp ht habs
    have hc := callMcpTool_missing_data t _ _ "Failed to list visible apps" resp ht
      (respData_none_of_absent resp habs)
    have hr : listVisibleAppsRun t =
        .error ("Failed to call list_visible_apps: " ++ "Invalid response data format") := by
      simp [listVisibleAppsRun, hc]
    rw [listVisibleApps_of_run_error t _ hr]
    exact ⟨rfl, rfl, ": Failed to call list_visible_apps: Invalid response data format", by decide⟩

/-- A transport answering with a body-less response, for witnesses. -/
def tNoData : Transport := fun _ _ =>
  .ok { statusCode := none, body := none, requestId := none }

theorem c4_missing_data_payload_witness :
    ((getInstalledApps tNoData true true true).success = false ∧
     (getInstalledApps tNoData true true true).requestId = "" ∧
     ∃ rest, (getInstalledApps tNoData true true true).errorMessage =
       some ("Failed to get installed apps" ++ rest)) ∧
    ((stopAppByCmd tNoData "kill x").success = false ∧
     (stopAppByCmd tNoData "kill x").requestId = "" ∧
     ∃ rest, (stopAppByCmd tNoData "kill x").errorMessage =
       some ("Failed to stop app by command" ++ rest)) :=
  ⟨c4_missing_data_payload.1 tNoData true true true
      { statusCode := none, body := none, requestId := none } rfl (Or.inl rfl),
   c4_missing_data_payload.2.2.2.2.1 tNoData "kill x"
      { statusCode := none, body := none, requestId := none } rfl (Or.inl rfl)⟩
lemma callMcpTool_of_inner_error (t : Transport) (name : String)
    (args : List (String × JValue)) (dmsg e : String)
    (h : callMcpToolInner t name args dmsg = .error e) :
    callMcpTool t name args dmsg = .error ("Failed to call " ++ name ++ ": " ++ e) := by
  simp [callMcpTool, h]

lemma callMcpToolInner_isError_not_ok (t : Transport) (name : String)
    (args : List (String × JValue)) (dmsg : String) (resp : Response) (d : JValue)
    (ht : t name args = .ok resp) (hd : respData resp = some d)
    (hie : jLookup d "isError" = some (.jbool true)) (r : CallMcpToolResult) :
    callMcpToolInner t name args dmsg ≠ .ok r := by
  intro h
  unfold callMcpToolInner at h
  simp only [ht, hd, hie] at h
  repeat' split at h
  all_goals simp_all

lemma callMcpToolInner_isError_first_text (t : Transport) (name : String)
    (args : List (String × JValue)) (dmsg : String) (resp : Response) (d x txt : JValue)
    (rest : List JValue)
    (ht : t name args = .ok resp) (hd : respData resp = some d)
    (hie : jLookup d "isError" = some (.jbool true))
    (hc : jLookup d "content" = some (.jarr (x :: rest)))
    (hx : jLookup x "text" = some txt) (htr : jTruthy txt = true) :
    callMcpToolInner t name args dmsg = .error (jToString txt) := by
  simp [callMcpToolInner, ht, hd, hie, hc, hx, htr]

lemma callMcpToolInner_isError_default (t : Transport) (name : String)
    (args : List (String × JValue)) (dmsg : String) (resp : Response) (d : JValue)
    (ht : t name args = .ok resp) (hd : respData resp = some d)
    (hie : jLookup d "isError" = some (.jbool true))
    (ho : ∀ x rest txt, jLookup d "content" = some (.jarr (x :: rest)) →
      jLookup x "text" = some txt → jTruthy txt = false) :
    callMcpToolInner t name args dmsg = .error dmsg := by
  unfold callMcpToolInner
  simp only [ht, hd, hie]
  split
  next x rest heq =>
    split
    next txt hx =>
      rw [ho x rest txt heq hx]
      simp
    next => rfl
  next => rfl

/-- A transport whose response marks `isError` with a present but empty
`text` on the first content item, for the C2 counterexample. -/
def tEmptyText : Transport := fun _ _ =>
  .ok { statusCode := some 200,
        body := some { data := some (.jobj
          [("isError", .jbool true),
           ("content", .jarr [.jobj [("text", .jstr "")]])]) },
        requestId := some "r2" }

/-- C2 counterexample: the first content item's `text` field is present
(it equals `""`), yet the helper raises the caller-supplied default
message, not that field -- the code tests JavaScript truthiness, not
presence. -/
theorem c2_counterexample :
    jLookup (.jobj [("text", .jstr "")]) "text" = some (.jstr "") ∧
    callMcpTool tEmptyText "tool_x" [] "default failure" =
      .error ("Failed to call tool_x: " ++ "default failure") ∧
    "Failed to call tool_x: " ++ "default failure" ≠ "Failed to call tool_x: " ++ "" :=
  ⟨rfl, rfl, by decide⟩

/-- A transport whose response marks `isError` with `content[0].text =
"boom"`. -/
def tBoom : Transport := fun _ _ =>
  .ok { statusCode := some 200,
        body := some { data := some (.jobj
          [("isError", .jbool true),
           ("content", .jarr [.jobj [("text", .jstr "boom")]])]) },
        requestId := some "r3" }

/-- C2 (amended): when the response payload has `isError = true` the
helper always raises (never returns a result); it raises with the first
content item's `text` field when that field is present **and truthy**
(e.g. a non-empty string), otherwise with the caller-supplied default
message; consequently `content[0].text = "boom"` makes the public
operation return `success = false` with an `errorMessage` containing
`"boom"`. -/
theorem c2_amended_isError_always_raises (t : Transport) (name : String)
    (args : List (String × JValue)) (dmsg : String) (resp : Response) (d : JValue)
    (ht : t name args = .ok resp) (hd : respData resp = some d)
    (hie : jLookup d "isError" = some (.jbool true)) :
    (∀ r, callMcpTool t name args dmsg ≠ .ok r) ∧
    (∀ x rest txt, jLookup d "content" = some (.jarr (x :: rest)) →
      jLookup x "text" = some txt → jTruthy txt = true →
      callMcpTool t name args dmsg =
        .error ("Failed to call " ++ name ++ ": " ++ jToString txt)) ∧
    ((∀ x rest txt, jLookup d "content" = some (.jarr (x :: rest)) →
        jLookup x "text" = some txt → jTruthy txt = false) →
      callMcpTool t name args dmsg =
        .error ("Failed to call " ++ name ++ ": " ++ dmsg)) ∧
    ((getInstalledApps tBoom true true true).success = false ∧
     ∃ m pre post, (getInstalledApps tBoom true true true).errorMessage = some m ∧
       m = pre ++ "boom" ++ post) := by
  refine ⟨?_, ?_, ?_, ?_, ?_⟩
  · intro r h
    unfold callMcpTool at h
    split at h
    · exact callMcpToolInner_isError_not_ok t name args dmsg resp d ht hd hie _
        (by assumption)
    · cases h
  · intro x rest txt hc hx htr
    exact callMcpTool_of_inner_error t name args dmsg _
      (callMcpToolInner_isError_first_text t name args dmsg resp d x txt rest ht hd hie hc hx htr)
  · intro ho
    exact callMcpTool_of_inner_error t name args dmsg _
      (callMcpToolInner_isError_default t name args dmsg resp d ht hd hie ho)
  · rfl
  · exact ⟨"Failed to get installed apps: Failed to call get_installed_apps: boom",
      "Failed to get installed apps: Failed to call get_installed_apps: ", "",
      rfl, by decide⟩

theorem c2_amended_witness :
    callMcpTool tBoom "get_installed_apps" [] "default failure" =
      .error ("Failed to call " ++ "get_installed_apps" ++ ": " ++
        jToString (.jstr "boom")) ∧
    (∀ r, callMcpTool tBoom "get_installed_apps" [] "default failure" ≠ .ok r) :=
  ⟨(c2_amended_isError_always_raises tBoom "get_installed_apps" [] "default failure"
      { statusCode := some 200,
        body := some { data := some (.jobj
          [("isError", .jbool true),
           ("content", .jarr [.jobj [("text", .jstr "boom")]])]) },
        requestId := some "r3" }
      (.jobj [("isError", .jbool true),
              ("content", .jarr [.jobj [("text", .jstr "boom")]])])
      rfl rfl rfl).2.1
    (.jobj [("text", .jstr "boom")]) [] (.jstr "boom") rfl rfl rfl,
   (c2_amended_isError_always_raises tBoom "get_installed_apps" [] "default failure"
      { statusCode := some 200,
        body := some { data := some (.jobj
          [("isError", .jbool true),
           ("content", .jarr [.jobj [("text", .jstr "boom")]])]) },
        requestId := some "r3" }
      (.jobj [("isError", .jbool true),
              ("content", .jarr [.jobj [("text", .jstr "boom")]])])
      rfl rfl rfl).1⟩
/-- Content items refuting C3 as stated: the middle item *has* a string
`text` field (the empty string) but the code skips it. -/
def itemsEmptyText : List JValue :=
  [.jobj [("text", .jstr "a")], .jobj [("text", .jstr "")], .jobj [("text", .jstr "b")]]

/-- C3 counterexample: on `[{text:"a"}, {text:""}, {text:"b"}]` the code
computes `textContent = "a\nb"`, not the `"a\n\nb"` that newline-joining
the `text` of every item with a string `text` field would give: the item
with `text = ""` has a string `text` field yet is skipped. -/
theorem c3_counterexample :
    claimTextParts itemsEmptyText = ["a", "", "b"] ∧
    collectTextParts itemsEmptyText = ["a", "b"] ∧
    textContentOf (.jobj [("content", .jarr itemsEmptyText)]) =
      some (String.intercalate "\n" (collectTextParts itemsEmptyText)) ∧
    String.intercalate "\n" (collectTextParts itemsEmptyText) ≠
      String.intercalate "\n" (claimTextParts itemsEmptyText) :=
  ⟨rfl, rfl, rfl, by decide⟩

/-- The claim's own example items: `[{text:"a"}, {text:"b"}, {}]`. -/
def itemsExample : List JValue :=
  [.jobj [("text", .jstr "a")], .jobj [("text", .jstr "b")], .jobj []]

/-- A transport answering with `itemsExample` as content. -/
def tExample : Transport := fun _ _ =>
  .ok { statusCode := some 200,
        body := some { data := some (.jobj [("content", .jarr itemsExample)]) },
        requestId := some "r4" }

/-- C3 (amended): `textContent` is the newline-joined concatenation of the
content items' `text` fields in sequence order, skipping exactly those
items that do not have a **non-empty** string `text` field
(`collectTextParts` coincides with the declarative `amendedTextParts`);
in particular content `[{text:"a"}, {text:"b"}, {no text field}]` yields
`textContent = "a\nb"`. -/
theorem c3_amended_textContent (items : List JValue) :
    collectTextParts items = amendedTextParts items ∧
    (∃ r, callMcpTool tExample "tool" [] "m" = .ok r ∧
      r.textContent = some ("a" ++ "\n" ++ "b")) := by
  constructor
  · induction items with
    | nil => simp [collectTextParts, amendedTextParts]
    | cons item rest ih =>
      cases item with
      | jobj fields =>
        simp only [collectTextParts, amendedTextParts, List.filterMap_cons]
        cases hl : fields.lookup "text" with
        | none => simpa [amendedTextParts] using ih
        | some v =>
          cases v with
          | jstr s =>
            by_cases hs : s = "" <;> simp [hs, amendedTextParts] at ih ⊢ <;> exact ih
          | jnull => simpa [amendedTextParts] using ih
          | jbool b => simpa [amendedTextParts] using ih
          | jnum n => simpa [amendedTextParts] using ih
          | jarr xs => simpa [amendedTextParts] using ih
          | jobj fs => simpa [amendedTextParts] using ih
      | jnull => simpa [collectTextParts, amendedTextParts] using ih
      | jbool b => simpa [collectTextParts, amendedTextParts] using ih
      | jnum n => simpa [collectTextParts, amendedTextParts] using ih
      | jstr s => simpa [collectTextParts, amendedTextParts] using ih
      | jarr xs => simpa [collectTextParts, amendedTextParts] using ih
  · exact ⟨{ data := .jobj [("content", .jarr itemsExample)],
             content := some itemsExample,
             textContent := some "a\nb",
             isError := false, errorMsg := none, statusCode := 200,
             requestId := some "r4" }, rfl, rfl⟩
lemma callMcpTool_of_inner_ok (t : Transport) (name : String)
    (args : List (String × JValue)) (dmsg : String) (r : CallMcpToolResult)
    (h : callMcpToolInner t name args dmsg = .ok r) :
    callMcpTool t name args dmsg = .ok r := by
  simp [callMcpTool, h]

lemma callMcpToolInner_success (t : Transport) (name : String)
    (args : List (String × JValue)) (dmsg : String) (resp : Response) (d : JValue)
    (ht : t name args = .ok resp) (hd : respData resp = some d)
    (hie : jLookup d "isError" ≠ some (.jbool true)) :
    callMcpToolInner t name args dmsg =
      .ok { data := d, content := contentOf d, textContent := textContentOf d,
            isError := false, errorMsg := none,
            statusCode := resp.statusCode.getD 0,
            requestId := extractRequestId resp } := by
  unfold callMcpToolInner
  simp only [ht, hd]

lemma callMcpTool_success (t : Transport) (name : String)
    (args : List (String × JValue)) (dmsg : String) (resp : Response) (d : JValue)
    (ht : t name args = .ok resp) (hd : respData resp = some d)
    (hie : jLookup d "isError" ≠ some (.jbool true)) :
    callMcpTool t name args dmsg =
      .ok { data := d, content := contentOf d, textContent := textContentOf d,
            isError := false, errorMsg := none,
            statusCode := resp.statusCode.getD 0,
            requestId := extractRequestId resp } :=
  callMcpTool_of_inner_ok t name args dmsg _
    (callMcpToolInner_success t name args dmsg resp d ht hd hie)

lemma getInstalledAppsRun_ok_of (t : Transport) (sm dk isa : Bool)
    (cr : CallMcpToolResult)
    (hcall : callMcpTool t "get_installed_apps" (getInstalledAppsArgs sm dk isa)
      "Failed to get installed apps" = .ok cr)
    (hparse : ∀ s, cr.textContent = some s → s ≠ "" → ∃ v, parseJSON s = .ok v) :
    ∃ dat, getInstalledAppsRun t sm dk isa = .ok (cr.requestId, dat) := by
  unfold getInstalledAppsRun
  simp only [hcall]
  cases hts : cr.textContent with
  | none => exact ⟨.jarr [], rfl⟩
  | some s =>
    by_cases hs : s = ""
    · exact ⟨.jarr [], by simp [hs]⟩
    · obtain ⟨v, hv⟩ := hparse s hts hs
      exact ⟨v, by simp [hs, hv]⟩

lemma startAppRun_ok_of (t : Transport) (cmd wd act : String)
    (cr : CallMcpToolResult)
    (hcall : callMcpTool t "start_app" (startAppArgs cmd wd act)
      "Failed to start app" = .ok cr)
    (hparse : ∀ s, cr.textContent = some s → s ≠ "" → ∃ v, parseJSON s = .ok v) :
    ∃ dat, startAppRun t cmd wd act = .ok (cr.requestId, dat) := by
  unfold startAppRun
  simp only [hcall]
  cases hts : cr.textContent with
  | none => exact ⟨.jarr [], rfl⟩
  | some s =>
    by_cases hs : s = ""
    · exact ⟨.jarr [], by simp [hs]⟩
    · obtain ⟨v, hv⟩ := hparse s hts hs
      exact ⟨v, by simp [hs, hv]⟩

lemma listVisibleAppsRun_ok_of (t : Transport) (cr : CallMcpToolResult)
    (hcall : callMcpTool t "list_visible_apps" [] "Failed to list visible apps" = .ok cr)
    (hparse : ∀ s, cr.textContent = some s → s ≠ "" → ∃ v, parseJSON s = .ok v) :
    ∃ dat, listVisibleAppsRun t = .ok (cr.requestId, dat) := by
  unfold listVisibleAppsRun
  simp only [hcall]
  cases hts : cr.textContent with
  | none => exact ⟨.jarr [], rfl⟩
  | some s =>
    by_cases hs : s = ""
    · exact ⟨.jarr [], by simp [hs]⟩
    · obtain ⟨v, hv⟩ := hparse s hts hs
      exact ⟨v, by simp [hs, hv]⟩

/-- C8: for each of the six public operations, a well-formed transport
response whose payload has `isError` not set to true (and, for the list
operations, whose `textContent` — if non-empty — is valid JSON) yields a
result with `success = true` and `requestId` equal to the request id
extracted from the transport response (with `""` substituted when the id
is absent). -/
theorem c8_wellformed_success :
    (∀ (t : Transport) (sm dk isa : Bool) (resp : Response) (d : JValue),
      t "get_installed_apps" (getInstalledAppsArgs sm dk isa) = .ok resp →
      respData resp = some d →
      jLookup d "isError" ≠ some (.jbool true) →
      (∀ s, textContentOf d = some s → s ≠ "" → ∃ v, parseJSON s = .ok v) →
      (getInstalledApps t sm dk isa).success = true ∧
      (getInstalledApps t sm dk isa).requestId = (extractRequestId resp).getD "" ∧
      (∀ rid, extractRequestId resp = some rid →
        (getInstalledApps t sm dk isa).requestId = rid)) ∧
    (∀ (t : Transport) (cmd wd act : String) (resp : Response) (d : JValue),
      t "start_app" (startAppArgs cmd wd act) = .ok resp →
      respData resp = some d →
      jLookup d "isError" ≠ some (.jbool true) →
      (∀ s, textContentOf d = some s → s ≠ "" → ∃ v, parseJSON s = .ok v) →
      (startApp t cmd wd act).success = true ∧
      (startApp t cmd wd act).requestId = (extractRequestId resp).getD "" ∧
      (∀ rid, extractRequestId resp = some rid →
        (startApp t cmd wd act).requestId = rid)) ∧
    (∀ (t : Transport) (p : String) (resp : Response) (d : JValue),
      t "stop_app_by_pname" [("pname", .jstr p)] = .ok resp →
      respData resp = some d →
      jLookup d "isError" ≠ some (.jbool true) →
      (stopAppByPName t p).success = true ∧
      (stopAppByPName t p).requestId = (extractRequestId resp).getD "" ∧
      (∀ rid, extractRequestId resp = some rid →
        (stopAppByPName t p).requestId = rid)) ∧
    (∀ (t : Transport) (pid : Int) (resp : Response) (d : JValue),
      t "stop_app_by_pid" [("pid", .jnum pid)] = .ok resp →
      respData resp = some d →
      jLookup d "isError" ≠ some (.jbool true) →
      (stopAppByPID t pid).success = true ∧
      (stopAppByPID t pid).requestId = (extractRequestId resp).getD "" ∧
      (∀ rid, extractRequestId resp = some rid →
        (stopAppByPID t pid).requestId = rid)) ∧
    (∀ (t : Transport) (sc : String) (resp : Response) (d : JValue),
      t "stop_app_by_cmd" [("stop_cmd", .jstr sc)] = .ok resp →
      respData resp = some d →
      jLookup d "isError" ≠ some (.jbool true) →
      (stopAppByCmd t sc).success = true ∧
      (stopAppByCmd t sc).requestId = (extractRequestId resp).getD "" ∧
      (∀ rid, extractRequestId resp = some rid →
        (stopAppByCmd t sc).requestId = rid)) ∧
    (∀ (t : Transport) (resp : Response) (d : JValue),
      t "list_visible_apps" [] = .ok resp →
      respData resp = some d →
      jLookup d "isError" ≠ some (.jbool true) →
      (∀ s, textContentOf d = some s → s ≠ "" → ∃ v, parseJSON s = .ok v) →
      (listVisibleApps t).success = true ∧
      (listVisibleApps t).requestId = (extractRequestId resp).getD "" ∧
      (∀ rid, extractRequestId resp = some rid →
        (listVisibleApps t).requestId = rid)) := by
  refine ⟨?_, ?_, ?_, ?_, ?_, ?_⟩
  · intro t sm dk isa resp d ht hd hie hparse
    have hcr := callMcpTool_success t "get_installed_apps"
      (getInstalledAppsArgs sm dk isa) "Failed to get installed apps" resp d ht hd hie
    obtain ⟨dat, hrun⟩ := getInstalledAppsRun_ok_of t sm dk isa _ hcr hparse
    rw [getInstalledApps_of_run_ok t sm dk isa _ dat hrun]
    exact ⟨rfl, rfl, fun rid hrid => by simp [hrid]⟩
  · intro t cmd wd act resp d ht hd hie hparse
    have hcr := callMcpTool_success t "start_app"
      (startAppArgs cmd wd act) "Failed to start app" resp d ht hd hie
    obtain ⟨dat, hrun⟩ := startAppRun_ok_of t cmd wd act _ hcr hparse
    rw [startApp_of_run_ok t cmd wd act _ dat hrun]
    exact ⟨rfl, rfl, fun rid hrid => by simp [hrid]⟩
  · intro t p resp d ht hd hie
    have hcr := callMcpTool_success t "stop_app_by_pname"
      [("pname", .jstr p)] "Failed to stop app by pname" resp d ht hd hie
    simp only [stopAppByPName, hcr]
    exact ⟨trivial, trivial, fun rid hrid => by simp [hrid]⟩
  · intro t pid resp d ht hd hie
    have hcr := callMcpTool_success t "stop_app_by_pid"
      [("pid", .jnum pid)] "Failed to stop app by pid" resp d ht hd hie
    simp only [stopAppByPID, hcr]
    exact ⟨trivial, trivial, fun rid hrid => by simp [hrid]⟩
  · intro t sc resp d ht hd hie
    have hcr := callMcpTool_success t "stop_app_by_cmd"
      [("stop_cmd", .jstr sc)] "Failed to stop app by command" resp d ht hd hie
    simp only [stopAppByCmd, hcr]
    exact ⟨trivial, trivial, fun rid hrid => by simp [hrid]⟩
  · intro t resp d ht hd hie hparse
    have hcr := callMcpTool_success t "list_visible_apps"
      [] "Failed to list visible apps" resp d ht hd hie
    obtain ⟨dat, hrun⟩ := listVisibleAppsRun_ok_of t _ hcr hparse
    rw [listVisibleApps_of_run_ok t _ dat hrun]
    exact ⟨rfl, rfl, fun rid hrid => by simp [hrid]⟩

/-- A well-formed success payload whose single content item carries the
JSON text `"[]"`, for witnesses. -/
def dList : JValue := .jobj [("content", .jarr [.jobj [("text", .jstr "[]")]])]

def respList : Response :=
  { statusCode := some 200,
    body := some { data := some dList },
    requestId := some "rid-9" }

def tOkList : Transport := fun _ _ => .ok respList

theorem c8_wellformed_success_witness :
    (getInstalledApps tOkList true true true).success = true ∧
    (getInstalledApps tOkList true true true).requestId = "rid-9" ∧
    (stopAppByPID tOkList 3).success = true ∧
    (stopAppByPID tOkList 3).requestId = "rid-9" := by
  have hparse : ∀ s, textContentOf dList = some s → s ≠ "" → ∃ v, parseJSON s = .ok v := by
    intro s hs _
    obtain rfl := (Option.some.inj hs).symm
    exact ⟨.jarr [], rfl⟩
  have h1 := c8_wellformed_success.1 tOkList true true true respList dList rfl rfl
    (fun h => Option.noConfusion h) hparse
  have h4 := c8_wellformed_success.2.2.2.1 tOkList 3 respList dList rfl rfl
    (fun h => Option.noConfusion h)
  exact ⟨h1.1, h1.2.2 "rid-9" rfl, h4.1, h4.2.2 "rid-9" rfl⟩
/-- A success payload whose text content is not valid JSON. -/
def dBadJson : JValue := .jobj [("content", .jarr [.jobj [("text", .jstr "not json")]])]

def respBadJson : Response :=
  { statusCode := some 200,
    body := some { data := some dBadJson },
    requestId := some "rid-bad" }

def tBadJson : Transport := fun _ _ => .ok respBadJson

/-- C10: the three stop operations never inspect or parse the response's
content/textContent: for every response with `isError` not true they
return `success = true` regardless of the text payload — even when that
payload is not valid JSON, on which `listVisibleApps` fails (closed
contrast conjunct). -/
theorem c10_stop_ops_ignore_text (t : Transport) (p : String) (pid : Int)
    (sc : String) (resp : Response) (d : JValue)
    (hd : respData resp = some d)
    (hie : jLookup d "isError" ≠ some (.jbool true)) :
    ((t "stop_app_by_pname" [("pname", .jstr p)] = .ok resp →
      stopAppByPName t p =
        { requestId := (extractRequestId resp).getD "", success := true,
          errorMessage := none }) ∧
     (t "stop_app_by_pid" [("pid", .jnum pid)] = .ok resp →
      stopAppByPID t pid =
        { requestId := (extractRequestId resp).getD "", success := true,
          errorMessage := none }) ∧
     (t "stop_app_by_cmd" [("stop_cmd", .jstr sc)] = .ok resp →
      stopAppByCmd t sc =
        { requestId := (extractRequestId resp).getD "", success := true,
          errorMessage := none })) ∧
    (textContentOf dBadJson = some "not json" ∧
     parseJSON "not json" = .error ("Failed to parse JSON: " ++ "SyntaxError") ∧
     (stopAppByPName tBadJson "proc").success = true ∧
     (listVisibleApps tBadJson).success = false) := by
  constructor
  · refine ⟨?_, ?_, ?_⟩
    · intro ht
      have hcr := callMcpTool_success t "stop_app_by_pname"
        [("pname", .jstr p)] "Failed to stop app by pname" resp d ht hd hie
      simp [stopAppByPName, hcr]
    · intro ht
      have hcr := callMcpTool_success t "stop_app_by_pid"
        [("pid", .jnum pid)] "Failed to stop app by pid" resp d ht hd hie
      simp [stopAppByPID, hcr]
    · intro ht
      have hcr := callMcpTool_success t "stop_app_by_cmd"
        [("stop_cmd", .jstr sc)] "Failed to stop app by command" resp d ht hd hie
      simp [stopAppByCmd, hcr]
  · exact ⟨rfl, rfl, rfl, rfl⟩

theorem c10_stop_ops_ignore_text_witness :
    stopAppByPName tBadJson "proc2" =
      { requestId := "rid-bad", success := true, errorMessage := none } ∧
    stopAppByPID tBadJson 5 =
      { requestId := "rid-bad", success := true, errorMessage := none } ∧
    stopAppByCmd tBadJson "kill" =
      { requestId := "rid-bad", success := true, errorMessage := none } :=
  ⟨(c10_stop_ops_ignore_text tBadJson "proc2" 5 "kill" respBadJson dBadJson rfl
      (fun h => Option.noConfusion h)).1.1 rfl,
   (c10_stop_ops_ignore_text tBadJson "proc2" 5 "kill" respBadJson dBadJson rfl
      (fun h => Option.noConfusion h)).1.2.1 rfl,
   (c10_stop_ops_ignore_text tBadJson "proc2" 5 "kill" respBadJson dBadJson rfl
      (fun h => Option.noConfusion h)).1.2.2 rfl⟩
lemma decodeList_spec {α : Type} (f : JValue → Option α) :
    ∀ (l : List JValue) (l' : List α), decodeList f l = some l' →
      l.length = l'.length ∧
      ∀ (i : Nat) (hi : i < l.length) (hi' : i < l'.length),
        f (l.get ⟨i, hi⟩) = some (l'.get ⟨i, hi'⟩) := by
  intro l
  induction l with
  | nil =>
    intro l' h
    simp only [decodeList] at h
    cases h
    exact ⟨rfl, fun i hi _ => absurd hi (by simp)⟩
  | cons v rest ih =>
    intro l' h
    simp only [decodeList] at h
    cases hf : f v with
    | none => rw [hf] at h; cases h
    | some a =>
      rw [hf] at h
      cases hr : decodeList f rest with
      | none => rw [hr] at h; cases h
      | some tl =>
        rw [hr] at h
        cases h
        obtain ⟨hlen, hget⟩ := ih tl hr
        refine ⟨by simp [hlen], ?_⟩
        intro i hi hi'
        cases i with
        | zero => simpa using hf
        | succ j => simpa using hget j (by simpa using hi) (by simpa using hi')

lemma getInstalledAppsRun_parsed (t : Transport) (sm dk isa : Bool)
    (cr : CallMcpToolResult) (s : String) (v : JValue)
    (hcr : callMcpTool t "get_installed_apps" (getInstalledAppsArgs sm dk isa)
      "Failed to get installed apps" = .ok cr)
    (hts : cr.textContent = some s) (hs : s ≠ "") (hp : parseJSON s = .ok v) :
    getInstalledAppsRun t sm dk isa = .ok (cr.requestId, v) := by
  unfold getInstalledAppsRun
  simp only [hcr, hts]
  simp [hs, hp]

lemma startAppRun_parsed (t : Transport) (cmd wd act : String)
    (cr : CallMcpToolResult) (s : String) (v : JValue)
    (hcr : callMcpTool t "start_app" (startAppArgs cmd wd act)
      "Failed to start app" = .ok cr)
    (hts : cr.textContent = some s) (hs : s ≠ "") (hp : parseJSON s = .ok v) :
    startAppRun t cmd wd act = .ok (cr.requestId, v) := by
  unfold startAppRun
  simp only [hcr, hts]
  simp [hs, hp]

lemma listVisibleAppsRun_parsed (t : Transport)
    (cr : CallMcpToolResult) (s : String) (v : JValue)
    (hcr : callMcpTool t "list_visible_apps" [] "Failed to list visible apps" = .ok cr)
    (hts : cr.textContent = some s) (hs : s ≠ "") (hp : parseJSON s = .ok v) :
    listVisibleAppsRun t = .ok (cr.requestId, v) := by
  unfold listVisibleAppsRun
  simp only [hcr, hts]
  simp [hs, hp]

/-- C7: for every success response whose `textContent` is a valid JSON
array of N records of the operation's expected type, the returned success
result's `data` is exactly that parsed array: it has the same N entries,
each decoding field-for-field to the corresponding record (stated for the
three payload-returning operations). -/
theorem c7_roundtrip_data :
    (∀ (t : Transport) (sm dk isa : Bool) (resp : Response) (d : JValue)
        (s : String) (items : List JValue) (apps : List InstalledApp),
      t "get_installed_apps" (getInstalledAppsArgs sm dk isa) = .ok resp →
      respData resp = some d →
      jLookup d "isError" ≠ some (.jbool true) →
      textContentOf d = some s → s ≠ "" →
      parseJSON s = .ok (.jarr items) →
      decodeList decodeInstalledApp items = some apps →
      (getInstalledApps t sm dk isa).success = true ∧
      (getInstalledApps t sm dk isa).data = .jarr items ∧
      items.length = apps.length ∧
      (∀ (i : Nat) (hi : i < items.length) (hi' : i < apps.length),
        decodeInstalledApp (items.get ⟨i, hi⟩) = some (apps.get ⟨i, hi'⟩))) ∧
    (∀ (t : Transport) (cmd wd act : String) (resp : Response) (d : JValue)
        (s : String) (items : List JValue) (procs : List Process),
      t "start_app" (startAppArgs cmd wd act) = .ok resp →
      respData resp = some d →
      jLookup d "isError" ≠ some (.jbool true) →
      textContentOf d = some s → s ≠ "" →
      parseJSON s = .ok (.jarr items) →
      decodeList decodeProcess items = some procs →
      (startApp t cmd wd act).success = true ∧
      (startApp t cmd wd act).data = .jarr items ∧
      items.length = procs.length ∧
      (∀ (i : Nat) (hi : i < items.length) (hi' : i < procs.length),
        decodeProcess (items.get ⟨i, hi⟩) = some (procs.get ⟨i, hi'⟩))) ∧
    (∀ (t : Transport) (resp : Response) (d : JValue)
        (s : String) (items : List JValue) (procs : List Process),
      t "list_visible_apps" [] = .ok resp →
      respData resp = some d →
      jLookup d "isError" ≠ some (.jbool true) →
      textContentOf d = some s → s ≠ "" →
      parseJSON s = .ok (.jarr items) →
      decodeList decodeProcess items = some procs →
      (listVisibleApps t).success = true ∧
      (listVisibleApps t).data = .jarr items ∧
      items.length = procs.length ∧
      (∀ (i : Nat) (hi : i < items.length) (hi' : i < procs.length),
        decodeProcess (items.get ⟨i, hi⟩) = some (procs.get ⟨i, hi'⟩))) := by
  refine ⟨?_, ?_, ?_⟩
  · intro t sm dk isa resp d s items apps ht hd hie hts hs hp hdec
    have hcr := callMcpTool_success t "get_installed_apps"
      (getInstalledAppsArgs sm dk isa) "Failed to get installed apps" resp d ht hd hie
    have hrun := getInstalledAppsRun_parsed t sm dk isa _ s (.jarr items) hcr hts hs hp
    rw [getInstalledApps_of_run_ok t sm dk isa _ _ hrun]
    obtain ⟨hlen, hget⟩ := decodeList_spec decodeInstalledApp items apps hdec
    exact ⟨rfl, rfl, hlen, hget⟩
  · intro t cmd wd act resp d s items procs ht hd hie hts hs hp hdec
    have hcr := callMcpTool_success t "start_app"
      (startAppArgs cmd wd act) "Failed to start app" resp d ht hd hie
    have hrun := startAppRun_parsed t cmd wd act _ s (.jarr items) hcr hts hs hp
    rw [startApp_of_run_ok t cmd wd act _ _ hrun]
    obtain ⟨hlen, hget⟩ := decodeList_spec decodeProcess items procs hdec
    exact ⟨rfl, rfl, hlen, hget⟩
  · intro t resp d s items procs ht hd hie hts hs hp hdec
    have hcr := callMcpTool_success t "list_visible_apps"
      [] "Failed to list visible apps" resp d ht hd hie
    have hrun := listVisibleAppsRun_parsed t _ s (.jarr items) hcr hts hs hp
    rw [listVisibleApps_of_run_ok t _ _ hrun]
    obtain ⟨hlen, hget⟩ := decodeList_spec decodeProcess items procs hdec
    exact ⟨rfl, rfl, hlen, hget⟩

/-- JSON text of one `InstalledApp` record, for the C7 witness. -/
def appsJson : String := "[\x7b\"name\":\"a\",\"start_cmd\":\"b\"\x7d]"

def itemsApps : List JValue := [.jobj [("name", .jstr "a"), ("start_cmd", .jstr "b")]]

def dApps : JValue := .jobj [("content", .jarr [.jobj [("text", .jstr appsJson)]])]

def respApps : Response :=
  { statusCode := some 200, body := some { data := some dApps }, requestId := some "ra" }

def tApps : Transport := fun _ _ => .ok respApps

/-- JSON text of one `Process` record, for the C7 witness. -/
def procsJson : String := "[\x7b\"pname\":\"p\",\"pid\":7\x7d]"

def itemsProcs : List JValue := [.jobj [("pname", .jstr "p"), ("pid", .jnum 7)]]

def dProcs : JValue := .jobj [("content", .jarr [.jobj [("text", .jstr procsJson)]])]

def respProcs : Response :=
  { statusCode := some 200, body := some { data := some dProcs }, requestId := some "rp" }

def tProcs : Transport := fun _ _ => .ok respProcs

theorem c7_roundtrip_data_witness :
    (getInstalledApps tApps true true true).success = true ∧
    (getInstalledApps tApps true true true).data = .jarr itemsApps ∧
    itemsApps.length =
      ([{ name := "a", start_cmd := "b", stop_cmd := none, work_directory := none }] :
        List InstalledApp).length ∧
    (listVisibleApps tProcs).success = true ∧
    (listVisibleApps tProcs).data = .jarr itemsProcs := by
  have h1 := c7_roundtrip_data.1 tApps true true true respApps dApps appsJson itemsApps
    [{ name := "a", start_cmd := "b", stop_cmd := none, work_directory := none }]
    rfl rfl (fun h => Option.noConfusion h) rfl (by decide) rfl rfl
  have h3 := c7_roundtrip_data.2.2 tProcs respProcs dProcs procsJson itemsProcs
    [{ pname := "p", pid := 7, cmdline := none, path := none }]
    rfl rfl (fun h => Option.noConfusion h) rfl (by decide) rfl rfl
  exact ⟨h1.1, h1.2.1, h1.2.2.1, h3.1, h3.2.1⟩
